import Mathlib

/-
Verification of the gotelnet TCP client against its design document.

The repository carries two variants of the program side by side: a draft
(main.go lines 1-139, and the truncated draft in the unnamed file) in which
every relay termination path calls os.Exit(0) directly, and the final
variant (main.go lines 140-277) in which the two relay directions coordinate
through a done channel guarded by a once guard, the relay closes the
connection after the channel fires, and main returns normally.

Bytes are modelled as natural numbers.  A relay direction is driven by a
script of read events: each event records the bytes the read call deposited
into the 1024-byte buffer (buf with n = data.length, the code forwards
buf up to n), whether the destination write (and, for the buffered draft
writer, the flush) succeeded, and the error value the read returned.  A
script that ends without a terminating event models a direction still
blocked in its read call.
-/

namespace Gotelnet

/-- Error values a Go read call can return in the relay loops: io.EOF or any
other non-nil error. -/
inductive GoErr where
  | eof
  | other
deriving DecidableEq, Repr

/-- One iteration of a relay loop as observed by the code: the chunk the read
deposited, the outcome of the destination write for that chunk, and the
error value returned by the read. -/
structure RwEvent where
  data : List Nat
  writeOk : Bool
  readErr : Option GoErr
deriving DecidableEq, Repr

/-- Parsed command-line configuration (type Config in main.go). -/
structure Config where
  Host : String
  Port : Int
  Timeout : Int
deriving DecidableEq, Repr

/-- Model of strconv.Atoi: an optional sign followed by a non-empty run of
decimal digits, anything else is an error.  (Values beyond the int64 range
make Atoi return an error in Go; such strings denote ports far outside
[1,65535], so both the model and the source reject them, merely with a
different message.) -/
def atoi (s : String) : Option Int :=
  let p :=
    match s.data with
    | '-' :: rest => (true, rest)
    | '+' :: rest => (false, rest)
    | ds => (false, ds)
  if p.2.isEmpty then none
  else if p.2.all Char.isDigit then
    let n : Nat := p.2.foldl (fun acc c => 10 * acc + (c.toNat - 48)) 0
    some (if p.1 then -(n : Int) else (n : Int))
  else none

/-- Model of parseArgs: the flag machinery is represented by the already
parsed optional value of the timeout flag, whose declared default is 10.
The source first requires exactly two positional arguments, then parses the
port with Atoi, then range-checks it. -/
def parseArgs (pos : List String) (timeoutFlag : Option Int) : Except String Config :=
  let timeout := timeoutFlag.getD 10
  match pos with
  | [host, portStr] =>
    match atoi portStr with
    | none => Except.error "invalid port number"
    | some port =>
      if port < 1 || port > 65535 then
        Except.error "port must be between 1 and 65535"
      else
        Except.ok { Host := host, Port := port, Timeout := timeout }
  | _ => Except.error "expected exactly 2 positional arguments: <host> <port>"

/-- Nanoseconds in one second (time.Second). -/
def nsPerSecond : Int := 1000000000

/-- Timeout the dialer is configured with, in nanoseconds: the connect
function sets Timeout to time.Duration(cfg.Timeout) * time.Second. -/
def dialerTimeoutNs (cfg : Config) : Int := cfg.Timeout * nsPerSecond

/-- Effective dial timeout, following the documented semantics of the
Timeout field of Go's net dialer: a zero value means no timeout is applied
by the dialer (the connect phase is then bounded only by the operating
system, if at all). -/
def dialerEffectiveTimeoutNs (cfg : Config) : Option Int :=
  if dialerTimeoutNs cfg ≠ 0 then some (dialerTimeoutNs cfg) else none

/-- State of the shutdown signal of the final relay: the once guard's flag,
whether the done channel has been closed, and how many close events have
actually been performed on the channel. -/
structure DoneSignal where
  onceDone : Bool
  chanClosed : Bool
  closeEvents : Nat
deriving DecidableEq, Repr

/-- Fresh signal created at relay start. -/
def signalStart : DoneSignal := { onceDone := false, chanClosed := false, closeEvents := 0 }

/-- Closing a Go channel: a run-time panic (none) if the channel is already
closed, otherwise one observable close event. -/
def closeChan (s : DoneSignal) : Option DoneSignal :=
  if s.chanClosed then none
  else some { s with chanClosed := true, closeEvents := s.closeEvents + 1 }

/-- closeDone from the final startIO: the once guard runs close(done) only
on the first call and skips the body on every later call. -/
def closeDone (s : DoneSignal) : Option DoneSignal :=
  if s.onceDone then some s
  else closeChan { s with onceDone := true }

/-- k successive calls to closeDone starting from the fresh signal (none if
any of them panicked). -/
def fireN : Nat → Option DoneSignal
  | 0 => some signalStart
  | k + 1 => (fireN k).bind closeDone

/-- Inbound direction of the final relay (socket to stdout goroutine):
read, forward the chunk when n > 0, fire the signal and stop on a write
error or on any read error.  Returns the bytes written to standard output
and whether the direction terminated (every termination path fires the
signal first). -/
def inboundRun : List RwEvent → List Nat × Bool
  | [] => ([], false)
  | e :: rest =>
    if 0 < e.data.length then
      if e.writeOk then
        match e.readErr with
        | some _ => (e.data, true)
        | none =>
          let p := inboundRun rest
          (e.data ++ p.1, p.2)
      else ([], true)
    else
      match e.readErr with
      | some _ => ([], true)
      | none => inboundRun rest

/-- Outbound direction of the final relay (stdin to socket goroutine):
read, write the chunk to the connection when n > 0, fire the signal and
stop on a write error, on io.EOF, or on any other read error.  Returns the
bytes written to the connection and whether the direction terminated. -/
def outboundRun : List RwEvent → List Nat × Bool
  | [] => ([], false)
  | e :: rest =>
    if 0 < e.data.length then
      if e.writeOk then
        match e.readErr with
        | some GoErr.eof => (e.data, true)
        | some GoErr.other => (e.data, true)
        | none =>
          let p := outboundRun rest
          (e.data ++ p.1, p.2)
      else ([], true)
    else
      match e.readErr with
      | some GoErr.eof => ([], true)
      | some GoErr.other => ([], true)
      | none => outboundRun rest

/-- Prefix of a read script that a relay loop actually consumes when the
destination writes succeed: everything up to and including the first event
whose read returned an error. -/
def consumedEvents : List RwEvent → List RwEvent
  | [] => []
  | e :: rest => if e.readErr.isSome then [e] else e :: consumedEvents rest

/-- An event on which a relay loop terminates: the read returned an error,
or the loop had bytes to forward and the destination write failed. -/
def termEv (e : RwEvent) : Bool :=
  e.readErr.isSome || (decide (0 < e.data.length) && !e.writeOk)

/-- Outcome of the final relay. -/
structure RelayResult where
  stdoutBytes : List Nat
  connSent : List Nat
  signalCloses : Nat
  connClosed : Bool
  returned : Bool
deriving DecidableEq, Repr

/-- Model of the final startIO (main.go lines 210-260): run the two
directions over their read scripts, let each terminated direction attempt
closeDone, then the main line of control passes the blocking receive on the
done channel exactly when the channel has been closed, closes the
connection and returns.  If neither direction terminated, the receive
blocks forever and the relay does not return. -/
def startIOModel (inEvs outEvs : List RwEvent) : RelayResult :=
  let i := inboundRun inEvs
  let o := outboundRun outEvs
  let attempts := (if i.2 then 1 else 0) + (if o.2 then 1 else 0)
  let sig := (fireN attempts).getD signalStart
  { stdoutBytes := i.1
    connSent := o.1
    signalCloses := sig.closeEvents
    connClosed := sig.chanClosed
    returned := sig.chanClosed }

/-- Result of one run of the final main (main.go lines 262-277): exit code
(none while the process is still blocked in the relay), bytes written to
standard output, number of Error diagnostic lines written to standard
error, and whether a connect was attempted. -/
structure MainResult where
  exitCode : Option Nat
  stdoutBytes : List Nat
  stderrErrorLines : Nat
  attemptedConnect : Bool
deriving DecidableEq, Repr

/-- Model of the final main: parse the arguments (exit 1 to stderr on
failure, before any connect), connect (exit 1 to stderr on failure), then
run the relay; when the relay returns, main returns and the process exits
with code 0.  The connect outcome is an external input (connectOk). -/
def mainRun (pos : List String) (timeoutFlag : Option Int) (connectOk : Bool)
    (inEvs outEvs : List RwEvent) : MainResult :=
  match parseArgs pos timeoutFlag with
  | Except.error _ =>
    { exitCode := some 1, stdoutBytes := [], stderrErrorLines := 1, attemptedConnect := false }
  | Except.ok _ =>
    if connectOk then
      let r := startIOModel inEvs outEvs
      if r.returned then
        { exitCode := some 0, stdoutBytes := r.stdoutBytes, stderrErrorLines := 0,
          attemptedConnect := true }
      else
        { exitCode := none, stdoutBytes := r.stdoutBytes, stderrErrorLines := 0,
          attemptedConnect := true }
    else
      { exitCode := some 1, stdoutBytes := [], stderrErrorLines := 1, attemptedConnect := true }

/-- Bytes of a string (the concrete strings below are ASCII, where code
points and UTF-8 bytes coincide). -/
def strBytes (s : String) : List Nat := s.data.map Char.toNat

/-- The line the draft main prints to standard output with
fmt.Printf("Config: %+v\n", cfg) on a pointer to Config. -/
def configLine (cfg : Config) : String :=
  "Config: &\x7bHost:" ++ cfg.Host ++ " Port:" ++ toString cfg.Port ++
    " Timeout:" ++ toString cfg.Timeout ++ "\x7d\n"

/-- Outcome of the draft relay's socket-to-stdout goroutine. -/
structure V1InResult where
  out : List Nat
  exited : Bool
deriving DecidableEq, Repr

/-- Model of the draft relay's socket-to-stdout goroutine (main.go lines
73-90): same loop shape as the final inbound direction, but every
termination path calls os.Exit(0) directly; no close of the connection is
performed on these paths, and os.Exit does not run deferred functions. -/
def v1InboundRun : List RwEvent → V1InResult
  | [] => { out := [], exited := false }
  | e :: rest =>
    if 0 < e.data.length then
      if e.writeOk then
        match e.readErr with
        | some _ => { out := e.data, exited := true }
        | none =>
          let p := v1InboundRun rest
          { out := e.data ++ p.out, exited := p.exited }
      else { out := [], exited := true }
    else
      match e.readErr with
      | some _ => { out := [], exited := true }
      | none => v1InboundRun rest

/-- State of the draft relay's stdin-to-socket loop: bytes sitting in the
buffered writer, bytes committed to the connection, whether conn.Close was
called, and whether the loop exited the process. -/
structure V1OutState where
  buffered : List Nat
  sent : List Nat
  connClosed : Bool
  exited : Bool
deriving DecidableEq, Repr

/-- Initial state of the draft stdin-to-socket loop. -/
def v1OutStart : V1OutState :=
  { buffered := [], sent := [], connClosed := false, exited := false }

/-- Write step of the buffered writer (buffer size 4096): when the incoming
chunk does not fit in the remaining space the buffer is flushed to the
connection first, then the chunk is appended to the buffer.  Returns the
new buffer and the new committed stream. -/
def bufWrite (buffered sent data : List Nat) : List Nat × List Nat :=
  if 4096 < buffered.length + data.length then (data, sent ++ buffered)
  else (buffered ++ data, sent)

/-- Model of the draft relay's stdin-to-socket loop (main.go lines 93-118):
read, write the chunk into the buffered writer when n > 0, then flush so
the bytes reach the connection at once; on a flush failure exit the
process; on io.EOF close the connection and exit; on any other read error
exit without closing.  The writeOk field of the event is the outcome of
the flush (a write into a buffer with free space cannot fail). -/
def v1OutboundRun : List RwEvent → V1OutState → V1OutState
  | [], s => s
  | e :: rest, s =>
    if 0 < e.data.length then
      let bw := bufWrite s.buffered s.sent e.data
      if e.writeOk then
        let s1 : V1OutState :=
          { buffered := [], sent := bw.2 ++ bw.1, connClosed := s.connClosed,
            exited := s.exited }
        match e.readErr with
        | some GoErr.eof => { s1 with connClosed := true, exited := true }
        | some GoErr.other => { s1 with exited := true }
        | none => v1OutboundRun rest s1
      else { s with buffered := bw.1, sent := bw.2, exited := true }
    else
      match e.readErr with
      | some GoErr.eof => { s with connClosed := true, exited := true }
      | some GoErr.other => { s with exited := true }
      | none => v1OutboundRun rest s

/-- Outcome of one run of the draft main. -/
structure V1SessionResult where
  exitCode : Option Nat
  stdoutBytes : List Nat
  connClosed : Bool
deriving DecidableEq, Repr

/-- Model of the draft main (main.go lines 121-139, and the truncated draft
in the unnamed file) in a run where local standard input never yields, so
the stdin-to-socket loop stays blocked in its read: parse the arguments,
echo the Config line to standard output, connect (the Connected notice goes
to standard error), then the socket-to-stdout goroutine runs; its exit
paths call os.Exit(0), which skips the deferred conn.Close in main, so the
connection is not closed on them. -/
def v1Session (pos : List String) (timeoutFlag : Option Int) (connectOk : Bool)
    (inEvs : List RwEvent) : V1SessionResult :=
  match parseArgs pos timeoutFlag with
  | Except.error _ => { exitCode := some 1, stdoutBytes := [], connClosed := false }
  | Except.ok cfg =>
    let echoed := strBytes (configLine cfg)
    if connectOk then
      let r := v1InboundRun inEvs
      if r.exited then
        { exitCode := some 0, stdoutBytes := echoed ++ r.out, connClosed := false }
      else
        { exitCode := none, stdoutBytes := echoed ++ r.out, connClosed := false }
    else { exitCode := some 1, stdoutBytes := echoed, connClosed := false }

/-! Helper lemmas about the relay loops and the signal. -/

/-- When the destination writes succeed, the inbound loop writes exactly the
concatenation of the chunks of the consumed prefix of its read script. -/
theorem inboundRun_fst (evs : List RwEvent) (h : ∀ e ∈ evs, e.writeOk = true) :
    (inboundRun evs).1 = ((consumedEvents evs).map RwEvent.data).flatten := by
  induction evs with
  | nil => simp [inboundRun, consumedEvents]
  | cons e rest ih =>
    have he : e.writeOk = true := h e (by simp)
    have hr : ∀ x ∈ rest, x.writeOk = true := fun x hx => h x (by simp [hx])
    by_cases hd : 0 < e.data.length
    · cases herr : e.readErr with
      | some g => simp [inboundRun, consumedEvents, hd, he, herr]
      | none => simp [inboundRun, consumedEvents, hd, he, herr, ih hr]
    · have hnil : e.data = [] := by
        cases hdata : e.data with
        | nil => rfl
        | cons a l => rw [hdata] at hd; simp at hd
      cases herr : e.readErr with
      | some g => simp [inboundRun, consumedEvents, hd, herr, hnil]
      | none => simp [inboundRun, consumedEvents, hd, herr, hnil, ih hr]

/-- When the destination writes succeed, the outbound loop of the final
relay writes exactly the concatenation of the chunks of the consumed prefix
of its read script to the connection. -/
theorem outboundRun_fst (evs : List RwEvent) (h : ∀ e ∈ evs, e.writeOk = true) :
    (outboundRun evs).1 = ((consumedEvents evs).map RwEvent.data).flatten := by
  induction evs with
  | nil => simp [outboundRun, consumedEvents]
  | cons e rest ih =>
    have he : e.writeOk = true := h e (by simp)
    have hr : ∀ x ∈ rest, x.writeOk = true := fun x hx => h x (by simp [hx])
    by_cases hd : 0 < e.data.length
    · cases herr : e.readErr with
      | some g => cases g <;> simp [outboundRun, consumedEvents, hd, he, herr]
      | none => simp [outboundRun, consumedEvents, hd, he, herr, ih hr]
    · have hnil : e.data = [] := by
        cases hdata : e.data with
        | nil => rfl
        | cons a l => rw [hdata] at hd; simp at hd
      cases herr : e.readErr with
      | some g => cases g <;> simp [outboundRun, consumedEvents, hd, herr, hnil]
      | none => simp [outboundRun, consumedEvents, hd, herr, hnil, ih hr]

/-- The inbound loop terminates exactly when its script holds a terminating
event. -/
theorem inboundRun_snd (evs : List RwEvent) :
    (inboundRun evs).2 = evs.any termEv := by
  induction evs with
  | nil => simp [inboundRun]
  | cons e rest ih =>
    by_cases hd : 0 < e.data.length
    · by_cases hw : e.writeOk
      · cases herr : e.readErr with
        | some g => simp [inboundRun, termEv, hd, hw, herr]
        | none => simp [inboundRun, termEv, hd, hw, herr, ih]
      · simp [inboundRun, termEv, hd, hw]
    · cases herr : e.readErr with
      | some g => simp [inboundRun, termEv, hd, herr]
      | none => simp [inboundRun, termEv, hd, herr, ih]

/-- The outbound loop of the final relay terminates exactly when its script
holds a terminating event. -/
theorem outboundRun_snd (evs : List RwEvent) :
    (outboundRun evs).2 = evs.any termEv := by
  induction evs with
  | nil => simp [outboundRun]
  | cons e rest ih =>
    by_cases hd : 0 < e.data.length
    · by_cases hw : e.writeOk
      · cases herr : e.readErr with
        | some g => cases g <;> simp [outboundRun, termEv, hd, hw, herr]
        | none => simp [outboundRun, termEv, hd, hw, herr, ih]
      · simp [outboundRun, termEv, hd, hw]
    · cases herr : e.readErr with
      | some g => cases g <;> simp [outboundRun, termEv, hd, herr]
      | none => simp [outboundRun, termEv, hd, herr, ih]

/-- Any positive number of closeDone calls from the fresh signal yields the
fired signal with exactly one close event and no panic. -/
theorem fireN_of_pos (k : Nat) (h : 1 ≤ k) :
    fireN k = some { onceDone := true, chanClosed := true, closeEvents := 1 } := by
  induction k with
  | zero => exact absurd h (by decide)
  | succ n ih =>
    cases n with
    | zero => rfl
    | succ m =>
      have hs : fireN (m + 1 + 1) = (fireN (m + 1)).bind closeDone := rfl
      rw [hs, ih (Nat.succ_le_succ (Nat.zero_le m))]
      rfl

/-- The final relay returns exactly when one of its directions terminated. -/
theorem startIOModel_returned (inEvs outEvs : List RwEvent) :
    (startIOModel inEvs outEvs).returned = (inEvs.any termEv || outEvs.any termEv) := by
  have hi := inboundRun_snd inEvs
  have ho := outboundRun_snd outEvs
  rw [← hi, ← ho]
  cases h1 : (inboundRun inEvs).2 <;> cases h2 : (outboundRun outEvs).2 <;>
    simp [startIOModel, h1, h2] <;> rfl

/-- The final relay closes the connection exactly when it returns. -/
theorem startIOModel_connClosed (inEvs outEvs : List RwEvent) :
    (startIOModel inEvs outEvs).connClosed = (startIOModel inEvs outEvs).returned := rfl

/-- The done channel is closed exactly once on a completed session and not
at all otherwise. -/
theorem startIOModel_signalCloses (inEvs outEvs : List RwEvent) :
    (startIOModel inEvs outEvs).signalCloses =
      (if (startIOModel inEvs outEvs).returned then 1 else 0) := by
  cases h1 : (inboundRun inEvs).2 <;> cases h2 : (outboundRun outEvs).2 <;>
    simp [startIOModel, h1, h2] <;> rfl

/-- Invariant run of the draft stdin-to-socket loop: starting from an empty
writer buffer, with successful flushes and read chunks that fit the 1024
byte read buffer, the loop ends with an empty writer buffer having
committed exactly the consumed chunks, in order, to the connection. -/
theorem v1OutboundRun_spec (evs : List RwEvent) :
    ∀ s : V1OutState, s.buffered = [] →
      (∀ e ∈ evs, e.writeOk = true) → (∀ e ∈ evs, e.data.length ≤ 1024) →
      (v1OutboundRun evs s).buffered = [] ∧
      (v1OutboundRun evs s).sent = s.sent ++ ((consumedEvents evs).map RwEvent.data).flatten := by
  induction evs with
  | nil => intro s hb hw hl; simp [v1OutboundRun, consumedEvents, hb]
  | cons e rest ih =>
    intro s hb hw hl
    have he : e.writeOk = true := hw e (by simp)
    have hle : e.data.length ≤ 1024 := hl e (by simp)
    have hwr : ∀ x ∈ rest, x.writeOk = true := fun x hx => hw x (by simp [hx])
    have hlr : ∀ x ∈ rest, x.data.length ≤ 1024 := fun x hx => hl x (by simp [hx])
    by_cases hd : 0 < e.data.length
    · have hc : ¬ 4096 < s.buffered.length + e.data.length := by
        rw [hb]; simp; omega
      have hbw : bufWrite s.buffered s.sent e.data = (e.data, s.sent) := by
        simp [bufWrite, hc, hb]
      cases herr : e.readErr with
      | some g =>
        cases g <;> simp [v1OutboundRun, consumedEvents, hd, he, herr, hbw]
      | none =>
        have hrec := ih ⟨[], s.sent ++ e.data, s.connClosed, s.exited⟩ rfl hwr hlr
        simp only [v1OutboundRun, hd, if_pos, he, if_true, herr, hbw]
        simp [consumedEvents, herr, hrec.1, hrec.2]
    · have hnil : e.data = [] := by
        cases hdata : e.data with
        | nil => rfl
        | cons a l => rw [hdata] at hd; simp at hd
      cases herr : e.readErr with
      | some g =>
        cases g <;> simp [v1OutboundRun, consumedEvents, hd, herr, hnil, hb]
      | none =>
        have hrec := ih s hb hwr hlr
        simp [v1OutboundRun, consumedEvents, hd, herr, hnil, hrec.1, hrec.2]

/-! Claim theorems. -/

/-- C1: Inbound byte fidelity — for every read script of the final relay's
socket-to-stdout direction whose stdout writes succeed, each non-empty
chunk is written exactly as read and the bytes written to standard output
are the concatenation, in source order and without reordering or
coalescing, of the chunks of the consumed prefix of the script. -/
theorem inbound_byte_fidelity (evs : List RwEvent)
    (h : ∀ e ∈ evs, e.writeOk = true) :
    (inboundRun evs).1 = ((consumedEvents evs).map RwEvent.data).flatten :=
  inboundRun_fst evs h

/-- Witness for C1: a two-chunk script ending in a clean end-of-stream. -/
theorem inbound_byte_fidelity_witness :
    (inboundRun [⟨[112, 105], true, none⟩, ⟨[110, 103], true, some GoErr.eof⟩]).1 =
      ((consumedEvents [⟨[112, 105], true, none⟩,
        ⟨[110, 103], true, some GoErr.eof⟩]).map RwEvent.data).flatten :=
  inbound_byte_fidelity
    [⟨[112, 105], true, none⟩, ⟨[110, 103], true, some GoErr.eof⟩] (by decide)

/-- C2: Outbound transmission — for every read script of the stdin-to-socket
direction whose connection writes and flushes succeed and whose chunks fit
the 1024-byte read buffer, exactly the consumed chunks are written to the
connection, in order; in the final variant the write is direct, and in the
draft variant the flush after each write leaves the writer buffer empty, so
no data stays buffered. -/
theorem outbound_transmission (evs : List RwEvent)
    (hw : ∀ e ∈ evs, e.writeOk = true) (hl : ∀ e ∈ evs, e.data.length ≤ 1024) :
    (outboundRun evs).1 = ((consumedEvents evs).map RwEvent.data).flatten ∧
    (v1OutboundRun evs v1OutStart).sent = ((consumedEvents evs).map RwEvent.data).flatten ∧
    (v1OutboundRun evs v1OutStart).buffered = [] := by
  refine ⟨outboundRun_fst evs hw, ?_, ?_⟩
  · have hs := (v1OutboundRun_spec evs v1OutStart rfl hw hl).2
    simpa [v1OutStart] using hs
  · exact (v1OutboundRun_spec evs v1OutStart rfl hw hl).1

/-- Witness for C2: one chunk followed by local end-of-input. -/
theorem outbound_transmission_witness :
    (outboundRun [⟨[104, 105], true, none⟩, ⟨[], true, some GoErr.eof⟩]).1 =
      ((consumedEvents [⟨[104, 105], true, none⟩,
        ⟨[], true, some GoErr.eof⟩]).map RwEvent.data).flatten ∧
    (v1OutboundRun [⟨[104, 105], true, none⟩, ⟨[], true, some GoErr.eof⟩] v1OutStart).sent =
      ((consumedEvents [⟨[104, 105], true, none⟩,
        ⟨[], true, some GoErr.eof⟩]).map RwEvent.data).flatten ∧
    (v1OutboundRun [⟨[104, 105], true, none⟩, ⟨[], true, some GoErr.eof⟩] v1OutStart).buffered = [] :=
  outbound_transmission [⟨[104, 105], true, none⟩, ⟨[], true, some GoErr.eof⟩]
    (by decide) (by decide)

/-- C3: Shutdown Signal idempotence — any positive number of closeDone
calls, in whatever order the two directions attempt them, produces exactly
one observable close of the done channel, never panics, and is
observationally equal to a single call. -/
theorem shutdown_signal_idempotent (k : Nat) (h : 1 ≤ k) :
    fireN k = some { onceDone := true, chanClosed := true, closeEvents := 1 } ∧
    fireN k = fireN 1 :=
  ⟨fireN_of_pos k h, by rw [fireN_of_pos k h, fireN_of_pos 1 (by decide)]⟩

/-- Witness for C3: two fire attempts, as in a race of both directions. -/
theorem shutdown_signal_idempotent_witness :
    fireN 2 = some { onceDone := true, chanClosed := true, closeEvents := 1 } ∧
    fireN 2 = fireN 1 :=
  shutdown_signal_idempotent 2 (by decide)

/-- C4: Termination policy — the final relay returns exactly when a
direction took a terminating step (each such step fires the signal, and the
blocking receive passes only once the signal fired); when it returns the
connection has been closed and the done channel was closed exactly once,
regardless of which direction, or both, terminated; while no direction has
terminated, the signal has not fired. -/
theorem relay_termination_policy (inEvs outEvs : List RwEvent) :
    ((startIOModel inEvs outEvs).returned = (inEvs.any termEv || outEvs.any termEv)) ∧
    ((startIOModel inEvs outEvs).returned = true →
      (startIOModel inEvs outEvs).connClosed = true ∧
      (startIOModel inEvs outEvs).signalCloses = 1) ∧
    ((startIOModel inEvs outEvs).returned = false →
      (startIOModel inEvs outEvs).signalCloses = 0) := by
  refine ⟨startIOModel_returned inEvs outEvs, ?_, ?_⟩
  · intro h
    refine ⟨(startIOModel_connClosed inEvs outEvs).trans h, ?_⟩
    rw [startIOModel_signalCloses inEvs outEvs, h]
    rfl
  · intro h
    rw [startIOModel_signalCloses inEvs outEvs, h]
    rfl

/-- Witness for C4: remote end-of-stream on the inbound direction while the
outbound direction stays blocked. -/
theorem relay_termination_policy_witness :
    (startIOModel [⟨[], true, some GoErr.eof⟩] []).connClosed = true ∧
    (startIOModel [⟨[], true, some GoErr.eof⟩] []).signalCloses = 1 :=
  (relay_termination_policy [⟨[], true, some GoErr.eof⟩] []).2.1 (by decide)

/-- C5: Exit-code mapping — argument-parsing failure and connect failure
exit with code 1; once the connection is established, any completed relay
ends the process with code 0, whether the terminating step was a clean
end-of-stream, local end-of-input, or an I/O error; the draft main likewise
exits 0 on any relay termination.  (Only the positional/port validation of
parseArgs is modelled; a malformed flag makes the Go flag package itself
exit, outside parseArgs.) -/
theorem exit_code_mapping (pos : List String) (tf : Option Int) (cOk : Bool)
    (inEvs outEvs : List RwEvent) :
    (∀ msg, parseArgs pos tf = Except.error msg →
      (mainRun pos tf cOk inEvs outEvs).exitCode = some 1) ∧
    (∀ cfg, parseArgs pos tf = Except.ok cfg → cOk = false →
      (mainRun pos tf cOk inEvs outEvs).exitCode = some 1) ∧
    (∀ cfg, parseArgs pos tf = Except.ok cfg → cOk = true →
      (inEvs.any termEv || outEvs.any termEv) = true →
      (mainRun pos tf cOk inEvs outEvs).exitCode = some 0) ∧
    (∀ cfg, parseArgs pos tf = Except.ok cfg → cOk = true →
      (v1InboundRun inEvs).exited = true →
      (v1Session pos tf cOk inEvs).exitCode = some 0) := by
  refine ⟨?_, ?_, ?_, ?_⟩
  · intro msg hp
    simp [mainRun, hp]
  · intro cfg hp hc
    simp [mainRun, hp, hc]
  · intro cfg hp hc hterm
    have hr : (startIOModel inEvs outEvs).returned = true := by
      rw [startIOModel_returned inEvs outEvs, hterm]
    simp [mainRun, hp, hc, hr]
  · intro cfg hp hc hex
    simp [v1Session, hp, hc, hex]

/-- Witness for C5: connection established, relay ended by a read error on
the socket; the process exits 0. -/
theorem exit_code_mapping_witness :
    (mainRun ["example.com", "23"] none true
      [⟨[], true, some GoErr.other⟩] []).exitCode = some 0 :=
  (exit_code_mapping ["example.com", "23"] none true
    [⟨[], true, some GoErr.other⟩] []).2.2.1
    { Host := "example.com", Port := 23, Timeout := 10 } rfl rfl (by decide)

/-- C6 counterexample: in the draft variant, a read error from the
connection makes the socket-to-stdout goroutine call os.Exit(0) directly;
conn.Close is not called on that path and os.Exit skips the deferred close
in main, so the run ends (exit code 0) without the close operation ever
being applied. -/
theorem draft_close_skipped_on_error :
    (v1Session ["example.com", "23"] none true
      [⟨[], true, some GoErr.other⟩]).exitCode = some 0 ∧
    (v1Session ["example.com", "23"] none true
      [⟨[], true, some GoErr.other⟩]).connClosed = false := by
  constructor <;> rfl

/-- C6 amended: in the final variant every completed session closes the
connection before the relay returns (and the deferred close in main is then
an idempotent no-op); in the draft variant the close is applied on the
local end-of-input path, while its error paths end the process without
applying it. -/
theorem connection_close_on_completion (inEvs outEvs rest : List RwEvent)
    (s : V1OutState) (h : (startIOModel inEvs outEvs).returned = true) :
    (startIOModel inEvs outEvs).connClosed = true ∧
    (v1OutboundRun (⟨[], true, some GoErr.eof⟩ :: rest) s).connClosed = true := by
  constructor
  · exact (startIOModel_connClosed inEvs outEvs).trans h
  · simp [v1OutboundRun]

/-- Witness for the amended C6. -/
theorem connection_close_on_completion_witness :
    (startIOModel [⟨[], true, some GoErr.eof⟩] []).connClosed = true ∧
    (v1OutboundRun [⟨[], true, some GoErr.eof⟩] v1OutStart).connClosed = true :=
  connection_close_on_completion [⟨[], true, some GoErr.eof⟩] [] [] v1OutStart (by decide)

/-- C7 counterexample: the draft main echoes the parsed Config line to
standard output, so in a run where the remote peer sends nothing and then
closes, standard output differs from the bytes the relay received. -/
theorem draft_config_echo_on_stdout :
    (v1Session ["example.com", "23"] none true
      [⟨[], true, some GoErr.eof⟩]).stdoutBytes ≠
      (inboundRun [⟨[], true, some GoErr.eof⟩]).1 := by
  decide

/-- C7 amended: failure diagnostics go only to the error stream and, in the
final variant, standard output carries exactly the bytes received from the
remote peer; the draft mains additionally echo the parsed Config line to
standard output at startup. -/
theorem final_stdout_purity (pos : List String) (tf : Option Int) (cOk : Bool)
    (inEvs outEvs : List RwEvent) (h : ∀ e ∈ inEvs, e.writeOk = true) :
    (∀ msg, parseArgs pos tf = Except.error msg →
      (mainRun pos tf cOk inEvs outEvs).stdoutBytes = [] ∧
      (mainRun pos tf cOk inEvs outEvs).stderrErrorLines = 1) ∧
    (∀ cfg, parseArgs pos tf = Except.ok cfg → cOk = false →
      (mainRun pos tf cOk inEvs outEvs).stdoutBytes = [] ∧
      (mainRun pos tf cOk inEvs outEvs).stderrErrorLines = 1) ∧
    (∀ cfg, parseArgs pos tf = Except.ok cfg → cOk = true →
      (mainRun pos tf cOk inEvs outEvs).stdoutBytes =
        ((consumedEvents inEvs).map RwEvent.data).flatten ∧
      (mainRun pos tf cOk inEvs outEvs).stderrErrorLines = 0) := by
  refine ⟨?_, ?_, ?_⟩
  · intro msg hp
    simp [mainRun, hp]
  · intro cfg hp hc
    simp [mainRun, hp, hc]
  · intro cfg hp hc
    subst hc
    have hf := inboundRun_fst inEvs h
    constructor
    · rw [← hf]
      simp only [mainRun, hp]
      repeat' split
      all_goals first | rfl | simp_all
    · simp only [mainRun, hp]
      repeat' split
      all_goals first | rfl | simp_all

/-- Witness for the amended C7. -/
theorem final_stdout_purity_witness :
    (mainRun ["example.com", "23"] none true
      [⟨[104, 105], true, some GoErr.eof⟩] []).stdoutBytes =
      ((consumedEvents [⟨[104, 105], true, some GoErr.eof⟩]).map RwEvent.data).flatten ∧
    (mainRun ["example.com", "23"] none true
      [⟨[104, 105], true, some GoErr.eof⟩] []).stderrErrorLines = 0 :=
  (final_stdout_purity ["example.com", "23"] none true
    [⟨[104, 105], true, some GoErr.eof⟩] [] (by decide)).2.2
    { Host := "example.com", Port := 23, Timeout := 10 } rfl rfl

/-- C8: Argument validation — parsing fails whenever the positional count
differs from two, the port string is not an integer, or the parsed port
lies outside [1,65535] (in particular 0 and 70000); port strings 1 and
65535 are accepted and produce exactly the given host, port and timeout;
and no connect is attempted after a parse failure. -/
theorem argument_validation :
    (∀ pos tf, pos.length ≠ 2 → ∃ msg, parseArgs pos tf = Except.error msg) ∧
    (∀ h s tf, atoi s = none →
      parseArgs [h, s] tf = Except.error "invalid port number") ∧
    (∀ h s tf p, atoi s = some p → p < 1 ∨ 65535 < p →
      parseArgs [h, s] tf = Except.error "port must be between 1 and 65535") ∧
    (∀ h tf, parseArgs [h, "0"] tf = Except.error "port must be between 1 and 65535") ∧
    (∀ h tf, parseArgs [h, "70000"] tf = Except.error "port must be between 1 and 65535") ∧
    (∀ h tf, parseArgs [h, "1"] tf =
      Except.ok { Host := h, Port := 1, Timeout := tf.getD 10 }) ∧
    (∀ h tf, parseArgs [h, "65535"] tf =
      Except.ok { Host := h, Port := 65535, Timeout := tf.getD 10 }) ∧
    (∀ pos tf cOk iE oE msg, parseArgs pos tf = Except.error msg →
      (mainRun pos tf cOk iE oE).attemptedConnect = false) := by
  refine ⟨?_, ?_, ?_, ?_, ?_, ?_, ?_, ?_⟩
  · intro pos tf hlen
    match pos with
    | [] => exact ⟨_, rfl⟩
    | [a] => exact ⟨_, rfl⟩
    | [a, b] => exact absurd rfl hlen
    | a :: b :: c :: rest => exact ⟨_, rfl⟩
  · intro h s tf ha
    simp [parseArgs, ha]
  · intro h s tf p ha hrange
    have hcond : (decide (p < 1) || decide (p > 65535)) = true := by
      rcases hrange with hlt | hgt
      · simp [hlt]
      · simp [hgt]
    simp [parseArgs, ha, hcond]
  · intro h tf
    rfl
  · intro h tf
    rfl
  · intro h tf
    rfl
  · intro h tf
    rfl
  · intro pos tf cOk iE oE msg hp
    simp [mainRun, hp]

/-- Witness for C8: arity failure, the rejected and the accepted ports. -/
theorem argument_validation_witness :
    (∃ msg, parseArgs [] none = Except.error msg) ∧
    parseArgs ["example.com", "70000"] none =
      Except.error "port must be between 1 and 65535" ∧
    parseArgs ["example.com", "1"] none =
      Except.ok { Host := "example.com", Port := 1, Timeout := 10 } :=
  ⟨argument_validation.1 [] none (by decide),
   argument_validation.2.2.2.2.1 "example.com" none,
   argument_validation.2.2.2.2.2.1 "example.com" none⟩

/-- C9 counterexample: with timeoutSeconds = 0 the dialer is configured
with a zero timeout, which in Go's net dialer means no dialer-level timeout
at all — no sane minimal or default timeout is applied by the program. -/
theorem zero_timeout_means_no_timeout :
    dialerEffectiveTimeoutNs { Host := "example.com", Port := 23, Timeout := 0 } = none := by
  rfl

/-- C9 amended: the timeout value, defaulting to 10 seconds when the flag
is absent, bounds only the connect phase — the dialer is configured with
exactly timeoutSeconds seconds and the relay model carries no read
deadline; for timeoutSeconds = 0 the dialer applies no timeout of its own,
leaving the connect phase bounded only by the operating system. -/
theorem connect_timeout_configuration (cfg : Config) (pos : List String) :
    dialerTimeoutNs cfg = cfg.Timeout * 1000000000 ∧
    (cfg.Timeout ≠ 0 → dialerEffectiveTimeoutNs cfg = some (cfg.Timeout * 1000000000)) ∧
    (cfg.Timeout = 0 → dialerEffectiveTimeoutNs cfg = none) ∧
    parseArgs pos none = parseArgs pos (some 10) := by
  refine ⟨rfl, ?_, ?_, rfl⟩
  · intro h
    simp [dialerEffectiveTimeoutNs, dialerTimeoutNs, nsPerSecond]
    exact h
  · intro h
    simp [dialerEffectiveTimeoutNs, dialerTimeoutNs, h]

/-- Witness for the amended C9. -/
theorem connect_timeout_configuration_witness :
    dialerEffectiveTimeoutNs { Host := "example.com", Port := 23, Timeout := 5 } =
      some 5000000000 := by
  have h := (connect_timeout_configuration
    { Host := "example.com", Port := 23, Timeout := 5 } []).2.1 (by decide)
  simpa using h

/-- C10: Trailing data is not lost — in both directions of the final relay,
a read that returns bytes together with an error still has those bytes
written to the destination before the direction terminates and fires the
signal. -/
theorem trailing_chunk_delivered (d : List Nat) (g : GoErr) (rest : List RwEvent)
    (hd : d ≠ []) :
    inboundRun (⟨d, true, some g⟩ :: rest) = (d, true) ∧
    outboundRun (⟨d, true, some g⟩ :: rest) = (d, true) := by
  have hlen : 0 < d.length := List.length_pos.mpr hd
  cases g <;> exact ⟨by simp [inboundRun, hlen], by simp [outboundRun, hlen]⟩

/-- Witness for C10: a final newline delivered together with end-of-stream. -/
theorem trailing_chunk_delivered_witness :
    inboundRun [⟨[10], true, some GoErr.eof⟩] = ([10], true) ∧
    outboundRun [⟨[10], true, some GoErr.eof⟩] = ([10], true) :=
  trailing_chunk_delivered [10] GoErr.eof [] (by decide)

end Gotelnet
